import Mathlib

/-!
Shallow embedding of the Selection-Connection order lifecycle and royalty
settlement engine: the `create-checkout`, `stripe-webhook`, `download` and
`resend-download` edge functions, over an explicit database state
(orders, payouts, files, royalty chains, override_controls flags).
Monetary amounts are integer minor units (cents); JavaScript `Math.round`
on the non-negative rationals occurring here is exact round-half-up,
embedded as `(num + den/2) / den` on `Nat`.
-/

namespace SelectionConnection

/-- `orders.payment_status` ∈ {pending, paid, failed, refunded}. -/
inductive PaymentStatus where
  | pending
  | paid
  | failed
  | refunded
deriving DecidableEq

/-- `files.stage`; `create-checkout` only sells `listed` files. -/
inductive Stage where
  | draft
  | uploaded
  | listed
  | unlisted
  | removed
deriving DecidableEq

/-- `payouts.status` ∈ {pending, transferred, failed}. -/
inductive PayoutStatus where
  | pending
  | transferred
  | failed
deriving DecidableEq

/-- One row of `file_royalty_chain` as selected by the edge functions:
`member_id, share_basis_points, position`. -/
structure RoyaltyEntry where
  member_id : String
  share_basis_points : Nat
  position : Nat
deriving DecidableEq

/-- A royalty entry together with its computed `amount_cents`
(`calculatePricing` spreads the entry and adds `amount_cents`). -/
structure PricedPayout where
  entry : RoyaltyEntry
  amount_cents : Nat
deriving DecidableEq

/-- Return value of `calculatePricing`. -/
structure Pricing where
  total_cents : Nat
  pif_fee_cents : Nat
  base_price_cents : Nat
  payouts : List PricedPayout
deriving DecidableEq

/-- Round-half-up of the rational `num / den`, i.e. `floor (num/den + 1/2)`,
which is what JavaScript `Math.round` computes on non-negative values. -/
def roundHalfUpDiv (num den : Nat) : Nat :=
  (2 * num + den) / (2 * den)

/-- `calculatePricing` from `create-checkout/index.ts`:
`totalCents = Math.round(priceCents * 1.10)` (here `(priceCents*11+5)/10`,
the exact round-half-up of `11*priceCents/10`),
`pifFeeCents = totalCents - priceCents`, and per royalty entry
`amount_cents = Math.round(priceCents * share_basis_points / 10000)`.
No validation of the share sum is performed. -/
def calculatePricing (priceCents : Nat) (royaltyChain : List RoyaltyEntry) : Pricing :=
  let totalCents := (priceCents * 11 + 5) / 10
  let pifFeeCents := totalCents - priceCents
  { total_cents := totalCents
    pif_fee_cents := pifFeeCents
    base_price_cents := priceCents
    payouts := royaltyChain.map fun entry =>
      { entry := entry
        amount_cents := (priceCents * entry.share_basis_points + 5000) / 10000 } }

/-- The slice of a `files` row used by the modelled functions. -/
structure FileRow where
  id : String
  title : String
  price_cents : Nat
  stage : Stage
  storage_path : String
deriving DecidableEq

/-- An `orders` row (fields used by the modelled functions; timestamps as
`Nat` milliseconds). `download_token` and `download_expires_at` are nullable,
initially null. -/
structure Order where
  id : String
  file_id : String
  buyer_email : String
  stripe_session_id : String
  payment_status : PaymentStatus
  total_cents : Nat
  pif_fee_cents : Nat
  download_token : Option String
  download_expires_at : Option Nat
  downloaded_at : Option Nat
  download_attempts : Nat
  delivery_email_retries : Nat
  created_at : Nat
  paid_at : Option Nat
deriving DecidableEq

/-- A `payouts` row as inserted by the webhook handler. -/
structure Payout where
  order_id : String
  member_id : String
  amount_cents : Nat
  status : PayoutStatus
deriving DecidableEq

/-- Database state shared by all request handlers: `override_controls`
(feature_key → enabled), `files`, `file_royalty_chain` (rows for a file,
already ordered by `position` as the queries request), `orders`, `payouts`. -/
structure DB where
  flags : List (String × Bool)
  files : List FileRow
  chains : List (String × List RoyaltyEntry)
  orders : List Order
  payouts : List Payout
deriving DecidableEq

/-- `override_controls` lookup by `feature_key` (the `.single()` query). -/
def lookupFlag (flags : List (String × Bool)) (key : String) : Option Bool :=
  (flags.find? fun kv => kv.1 == key).map fun kv => kv.2

/-- The royalty-chain query: rows for `file_id`, ordered by `position`. -/
def fetchChain (db : DB) (fileId : String) : List RoyaltyEntry :=
  ((db.chains.find? fun c => c.1 == fileId).map fun c => c.2).getD []

/-- `isPurchaseEnabled` from `create-checkout/index.ts`: reads the single
`override_controls` row with `feature_key = 'marketplace_purchase'`;
on error or absence returns false, else `enabled === true`.
No other flag (in particular not `master_switch`) is consulted. -/
def isPurchaseEnabled (db : DB) : Bool :=
  match lookupFlag db.flags "marketplace_purchase" with
  | some enabled => enabled
  | none => false

/-- `MAX_DELIVERY_RETRIES` from `resend-download`. -/
def MAX_DELIVERY_RETRIES : Nat := 5

/-- `DOWNLOAD_TOKEN_TTL_MS` from `resend-download` (72 hours in ms). -/
def DOWNLOAD_TOKEN_TTL_MS : Nat := 72 * 60 * 60 * 1000

/-- The `create-checkout` handler (openCheckout). Response embedded as the
HTTP status; the Stripe session is stubbed in the source, so the session id
and order id are parameters (generated values). Steps, in source order:
required-field check (400), `isPurchaseEnabled` (403), file lookup (404),
`stage !== "listed"` (422), empty royalty chain (500), `calculatePricing`,
insert a `pending` order with null download fields. -/
def createCheckout (db : DB) (file_id buyer_email : String)
    (sessionId orderId : String) (now : Nat) : Nat × DB :=
  if file_id = "" ∨ buyer_email = "" then (400, db)
  else if !(isPurchaseEnabled db) then (403, db)
  else
    match db.files.find? fun f => f.id == file_id with
    | none => (404, db)
    | some fileRow =>
      if fileRow.stage ≠ Stage.listed then (422, db)
      else
        let royaltyChain := fetchChain db file_id
        if royaltyChain.isEmpty then (500, db)
        else
          let pricing := calculatePricing fileRow.price_cents royaltyChain
          let order : Order :=
            { id := orderId
              file_id := file_id
              buyer_email := buyer_email
              stripe_session_id := sessionId
              payment_status := PaymentStatus.pending
              total_cents := pricing.total_cents
              pif_fee_cents := pricing.pif_fee_cents
              download_token := none
              download_expires_at := none
              downloaded_at := none
              download_attempts := 0
              delivery_email_retries := 0
              created_at := now
              paid_at := none }
          (200, { db with orders := db.orders ++ [order] })

/-- `handleCheckoutCompleted` from `stripe-webhook`: reads
`metadata.file_id` / `metadata.buyer_email` (missing or empty → 400), looks
the order up by `stripe_session_id` (absent → 404), then — without checking
the current `payment_status` — sets `payment_status = 'paid'`, a fresh
`download_token`, `download_expires_at = now + 72h`, `paid_at = now`;
fetches the royalty chain for the metadata `file_id` and, when non-empty,
inserts one payout row per entry with
`amount = Math.round(basePrice * share / 10000)` where
`basePrice = total_cents - pif_fee_cents`; returns 200. -/
def handleCheckoutCompleted (db : DB) (sessionId : String)
    (metaFileId metaBuyerEmail : Option String)
    (freshToken : String) (now : Nat) : Nat × DB :=
  match metaFileId, metaBuyerEmail with
  | some fileId, some buyerEmail =>
    if fileId = "" ∨ buyerEmail = "" then (400, db)
    else
      match db.orders.find? fun o => o.stripe_session_id == sessionId with
      | none => (404, db)
      | some order =>
        let downloadExpiresAt := now + 72 * 60 * 60 * 1000
        let db1 : DB :=
          { db with orders := db.orders.map fun o =>
              if o.id == order.id then
                { o with payment_status := PaymentStatus.paid
                         download_token := some freshToken
                         download_expires_at := some downloadExpiresAt
                         paid_at := some now }
              else o }
        let royaltyChain := fetchChain db1 fileId
        if royaltyChain.isEmpty then (200, db1)
        else
          let basePriceCents := order.total_cents - order.pif_fee_cents
          let payoutRows : List Payout := royaltyChain.map fun entry =>
            { order_id := order.id
              member_id := entry.member_id
              amount_cents := (basePriceCents * entry.share_basis_points + 5000) / 10000
              status := PayoutStatus.pending }
          (200, { db1 with payouts := db1.payouts ++ payoutRows })
  | _, _ => (400, db)

/-- `handlePaymentFailed` from `stripe-webhook`: the body only logs; the
order lookup and the `payment_status = 'failed'` update are commented-out
TODO code, so the handler returns 200 without touching the database. -/
def handlePaymentFailed (db : DB) (paymentIntentId : String) : Nat × DB :=
  let _ := paymentIntentId
  (200, db)

/-- A parsed Stripe webhook event (the signature-verification stub trusts
the JSON body). -/
structure StripeEvent where
  type : String
  sessionId : String
  paymentIntentId : String
  metaFileId : Option String
  metaBuyerEmail : Option String
deriving DecidableEq

/-- The `stripe-webhook` serve handler's event-type switch:
`checkout.session.completed` and `payment_intent.payment_failed` are routed
to their handlers; any other type is acknowledged with 200 and
`handled: false`, touching nothing. -/
def stripeWebhook (db : DB) (ev : StripeEvent)
    (freshToken : String) (now : Nat) : Nat × DB :=
  if ev.type = "checkout.session.completed" then
    handleCheckoutCompleted db ev.sessionId ev.metaFileId ev.metaBuyerEmail freshToken now
  else if ev.type = "payment_intent.payment_failed" then
    handlePaymentFailed db ev.paymentIntentId
  else (200, db)

/-- The `download` handler (redeem). Steps, in source order: missing token
(400), order lookup by `download_token` (404), `payment_status !== "paid"`
(403), expiry check — expired and requester not the buyer (`user?.email ===
order.buyer_email`) → 410, file lookup (404), then track the download
(`downloaded_at = now`, `download_attempts + 1`; `delivery_email_retries`
untouched) and redirect (302). -/
def download (db : DB) (token : String) (authEmail : Option String)
    (now : Nat) : Nat × DB :=
  if token = "" then (400, db)
  else
    match db.orders.find? fun o => o.download_token == some token with
    | none => (404, db)
    | some order =>
      if order.payment_status ≠ PaymentStatus.paid then (403, db)
      else
        let isExpired : Bool :=
          match order.download_expires_at with
          | some expiresAt => decide (expiresAt < now)
          | none => false
        if isExpired ∧ ¬(authEmail = some order.buyer_email) then (410, db)
        else
          match db.files.find? fun f => f.id == order.file_id with
          | none => (404, db)
          | some _fileRow =>
            (302, { db with orders := db.orders.map fun o =>
                if o.id == order.id then
                  { o with downloaded_at := some now
                           download_attempts := o.download_attempts + 1 }
                else o })

/-- The `resend-download` handler (renew). Steps, in source order: auth
required (401), missing order_id (400), order lookup by id (404),
`user.email !== order.buyer_email` (403), `payment_status !== "paid"`
(422), `delivery_email_retries >= MAX_DELIVERY_RETRIES` (429), then update:
fresh `download_token`, `download_expires_at = now + DOWNLOAD_TOKEN_TTL_MS`,
`delivery_email_retries + 1`; returns 200. -/
def resendDownload (db : DB) (authEmail : Option String) (order_id : String)
    (freshToken : String) (now : Nat) : Nat × DB :=
  match authEmail with
  | none => (401, db)
  | some email =>
    if order_id = "" then (400, db)
    else
      match db.orders.find? fun o => o.id == order_id with
      | none => (404, db)
      | some order =>
        if email ≠ order.buyer_email then (403, db)
        else if order.payment_status ≠ PaymentStatus.paid then (422, db)
        else if MAX_DELIVERY_RETRIES ≤ order.delivery_email_retries then (429, db)
        else
          (200, { db with orders := db.orders.map fun o =>
              if o.id == order.id then
                { o with download_token := some freshToken
                         download_expires_at := some (now + DOWNLOAD_TOKEN_TTL_MS)
                         delivery_email_retries := o.delivery_email_retries + 1 }
              else o })

/-- One request against the shared database: checkout creation, a webhook
event (payment outcome), renew, or redeem. -/
inductive Op where
  | checkoutOp (file_id buyer_email sessionId orderId : String) (now : Nat)
  | webhookOp (ev : StripeEvent) (freshToken : String) (now : Nat)
  | renewOp (authEmail : Option String) (order_id freshToken : String) (now : Nat)
  | redeemOp (token : String) (authEmail : Option String) (now : Nat)

/-- Run one operation against the database. -/
def applyOp (db : DB) : Op → Nat × DB
  | Op.checkoutOp f b s o n => createCheckout db f b s o n
  | Op.webhookOp ev t n => stripeWebhook db ev t n
  | Op.renewOp a oid t n => resendDownload db a oid t n
  | Op.redeemOp tok a n => download db tok a n

/-- Per-order credential/state invariant of the spec: `download_token` is
non-null only when `payment_status = paid`, and a paid order has non-null
`paid_at` and non-null `download_token`. -/
def OrderInv (o : Order) : Prop :=
  (o.download_token ≠ none → o.payment_status = PaymentStatus.paid) ∧
  (o.payment_status = PaymentStatus.paid →
    o.paid_at ≠ none ∧ o.download_token ≠ none)

/-! ## Helper lemmas -/

/-- Entrywise floor-division sums to at most the floor-division of the sum. -/
lemma sum_map_div_le (l : List Nat) (c : Nat) :
    (l.map fun x => x / c).sum ≤ l.sum / c := by
  induction l with
  | nil => simp
  | cons a t ih =>
    simp only [List.map_cons, List.sum_cons]
    calc a / c + (t.map fun x => x / c).sum
        ≤ a / c + t.sum / c := Nat.add_le_add_left ih _
      _ ≤ (a + t.sum) / c := Nat.add_div_le_add_div a t.sum c

/-- Summing `p * share + 5000` over a chain. -/
lemma sum_map_share_affine (p : Nat) (chain : List RoyaltyEntry) :
    (chain.map fun e => p * e.share_basis_points + 5000).sum =
      p * (chain.map fun e => e.share_basis_points).sum + 5000 * chain.length := by
  induction chain with
  | nil => simp
  | cons a t ih =>
    simp only [List.map_cons, List.sum_cons, List.length_cons, ih]
    ring

/-- `find?` commutes with a `map` whose function preserves the predicate. -/
lemma find?_map_of_pred_comm {α : Type} (g : α → α) (p : α → Bool)
    (h : ∀ x, p (g x) = p x) (l : List α) :
    (l.map g).find? p = (l.find? p).map g := by
  induction l with
  | nil => rfl
  | cons a t ih =>
    by_cases hpa : p a = true
    · rw [List.map_cons, List.find?_cons_of_pos _ (by rw [h a]; exact hpa),
        List.find?_cons_of_pos _ hpa]
      rfl
    · rw [List.map_cons,
        List.find?_cons_of_neg _ (by rw [h a]; simpa using hpa),
        List.find?_cons_of_neg _ (by simpa using hpa), ih]

/-! ## Claims about the royalty/pricing computation -/

/-- C5: for every non-negative integer base price (and any chain),
`calculatePricing` returns `total_cents = round-half-up(basePrice * 11/10)`
(the exact value of `Math.round(basePrice * 1.10)`) and
`pif_fee_cents = total_cents - basePrice`; concretely, base price 500 with
the single-participant split `[10000bp]` yields fee 50, total 550 and
payouts `[500]`. -/
theorem c5_pricing_ten_percent_surcharge :
    (∀ (p : Nat) (chain : List RoyaltyEntry),
       (calculatePricing p chain).total_cents = roundHalfUpDiv (11 * p) 10 ∧
       (calculatePricing p chain).pif_fee_cents =
         (calculatePricing p chain).total_cents - p) ∧
    calculatePricing 500 [⟨"m1", 10000, 0⟩] =
      { total_cents := 550
        pif_fee_cents := 50
        base_price_cents := 500
        payouts := [⟨⟨"m1", 10000, 0⟩, 500⟩] } := by
  refine ⟨fun p chain => ⟨?_, ?_⟩, by decide⟩
  · simp only [calculatePricing, roundHalfUpDiv]
    omega
  · simp only [calculatePricing]

/-- C3 counterexample: base price 1 with the split `[5000bp, 5000bp]`
(summing to exactly 10000) produces payouts `[1, 1]` whose sum 2 exceeds
the base price 1, because `Math.round` rounds each half up. -/
theorem c3_counterexample_sum_exceeds_base :
    (([⟨"m1", 5000, 0⟩, ⟨"m2", 5000, 1⟩] : List RoyaltyEntry).map
        fun e => e.share_basis_points).sum = 10000 ∧
    ((calculatePricing 1 [⟨"m1", 5000, 0⟩, ⟨"m2", 5000, 1⟩]).payouts.map
        fun q => q.amount_cents) = [1, 1] ∧
    ¬ (((calculatePricing 1 [⟨"m1", 5000, 0⟩, ⟨"m2", 5000, 1⟩]).payouts.map
        fun q => q.amount_cents).sum ≤ 1) := by
  decide

/-- C3 (amended): for every non-negative base price and every split whose
shares sum to exactly 10000, each payout amount is
round-half-up(basePrice * share / 10000), and the payout sum is at most
`basePrice + n/2` where `n` is the number of participants (each rounding
can contribute at most half a cent above its exact share). -/
theorem c3_amended_payout_sum_bound (p : Nat) (chain : List RoyaltyEntry)
    (hsum : (chain.map fun e => e.share_basis_points).sum = 10000) :
    ((calculatePricing p chain).payouts.map fun q => q.amount_cents) =
      chain.map (fun e => roundHalfUpDiv (p * e.share_basis_points) 10000) ∧
    ((calculatePricing p chain).payouts.map fun q => q.amount_cents).sum ≤
      p + chain.length / 2 := by
  have hmap : ((calculatePricing p chain).payouts.map fun q => q.amount_cents) =
      chain.map fun e => (p * e.share_basis_points + 5000) / 10000 := by
    simp [calculatePricing]
  constructor
  · rw [hmap]
    refine List.map_congr_left fun e _ => ?_
    simp only [roundHalfUpDiv]
    omega
  · rw [hmap]
    have hcomp : (chain.map fun e => (p * e.share_basis_points + 5000) / 10000) =
        (chain.map fun e => p * e.share_basis_points + 5000).map fun x => x / 10000 := by
      simp [List.map_map]
    rw [hcomp]
    calc ((chain.map fun e => p * e.share_basis_points + 5000).map
            fun x => x / 10000).sum
        ≤ (chain.map fun e => p * e.share_basis_points + 5000).sum / 10000 :=
          sum_map_div_le _ _
      _ = (p * 10000 + 5000 * chain.length) / 10000 := by
          rw [sum_map_share_affine, hsum]
      _ = p + chain.length / 2 := by omega

/-- Witness for C3 (amended): base price 500 with the single split
`[10000bp]` gives payouts `[500]` and `500 ≤ 500 + 0`. -/
theorem c3_amended_payout_sum_bound_witness :
    (([⟨"m1", 10000, 0⟩] : List RoyaltyEntry).map
        fun e => e.share_basis_points).sum = 10000 ∧
    (((calculatePricing 500 [⟨"m1", 10000, 0⟩]).payouts.map
        fun q => q.amount_cents) =
      ([⟨"m1", 10000, 0⟩] : List RoyaltyEntry).map
        (fun e => roundHalfUpDiv (500 * e.share_basis_points) 10000) ∧
    ((calculatePricing 500 [⟨"m1", 10000, 0⟩]).payouts.map
        fun q => q.amount_cents).sum ≤
      500 + ([⟨"m1", 10000, 0⟩] : List RoyaltyEntry).length / 2) :=
  ⟨by decide, c3_amended_payout_sum_bound 500 [⟨"m1", 10000, 0⟩] (by decide)⟩

/-! ## Claims about checkout validation -/

/-- A database whose only file has a royalty chain summing to 9999 basis
points, with purchasing enabled. -/
def dbChain9999 : DB :=
  { flags := [("marketplace_purchase", true)]
    files := [{ id := "f1", title := "Widget", price_cents := 500,
                stage := Stage.listed, storage_path := "u1/f1/w.zip" }]
    chains := [("f1", [⟨"m1", 9999, 0⟩])]
    orders := []
    payouts := [] }

/-- The single listed file used by the C4 witness database. -/
def fileRowC4 : FileRow :=
  { id := "f1", title := "Widget", price_cents := 500,
    stage := Stage.listed, storage_path := "u1/f1/w.zip" }

/-- A database whose only file has no royalty chain rows, with purchasing
enabled. -/
def dbChainEmpty : DB :=
  { flags := [("marketplace_purchase", true)]
    files := [fileRowC4]
    chains := []
    orders := []
    payouts := [] }

/-- C4 counterexample: with a non-empty royalty chain summing to 9999
(not 10000), `create-checkout` succeeds (status 200) and creates an order —
neither `calculatePricing` nor the handler raises any split-sum error. -/
theorem c4_counterexample_sum_9999_accepted :
    ((dbChain9999.chains.head?.map fun c => c.2).getD [] |>.map
        fun e => e.share_basis_points).sum = 9999 ∧
    (createCheckout dbChain9999 "f1" "b@example.com" "cs_1" "o1" 0).1 = 200 ∧
    (createCheckout dbChain9999 "f1" "b@example.com" "cs_1" "o1" 0).1 ≠ 500 ∧
    (createCheckout dbChain9999 "f1" "b@example.com" "cs_1" "o1" 0).2.orders.length = 1 := by
  decide

/-- C4 (amended): the code validates only non-emptiness of the split, not
its sum: given purchasing enabled, non-empty inputs and a listed file,
`create-checkout` fails with the royalty-misconfiguration error (500,
leaving the database unchanged) exactly when the file's royalty chain is
empty, and succeeds (200) for every non-empty chain regardless of its
basis-point sum. -/
theorem c4_amended_only_empty_chain_rejected (db : DB)
    (fid be sid oid : String) (now : Nat)
    (hen : isPurchaseEnabled db = true)
    (hfid : fid ≠ "") (hbe : be ≠ "")
    (f : FileRow)
    (hfile : db.files.find? (fun x => x.id == fid) = some f)
    (hstage : f.stage = Stage.listed) :
    (fetchChain db fid = [] → createCheckout db fid be sid oid now = (500, db)) ∧
    (fetchChain db fid ≠ [] → (createCheckout db fid be sid oid now).1 = 200) := by
  unfold createCheckout
  rw [hfile]
  simp only [hfid, hbe, hen, hstage, false_or, if_false, Bool.not_true,
    Bool.false_eq_true, ne_eq, not_true_eq_false, if_neg, ite_false]
  constructor
  · intro hch
    simp [hch]
  · intro hch
    simp [List.isEmpty_iff, hch]

/-- Witness for C4 (amended): a listed file with an empty royalty chain is
rejected with status 500. -/
theorem c4_amended_only_empty_chain_rejected_witness :
    isPurchaseEnabled dbChainEmpty = true ∧
    ("f1" : String) ≠ "" ∧ ("b@example.com" : String) ≠ "" ∧
    dbChainEmpty.files.find? (fun x => x.id == "f1") = some fileRowC4 ∧
    fileRowC4.stage = Stage.listed ∧
    (fetchChain dbChainEmpty "f1" = [] →
      createCheckout dbChainEmpty "f1" "b@example.com" "cs_1" "o1" 0 =
        (500, dbChainEmpty)) :=
  ⟨by decide, by decide, by decide, by decide, by decide,
    (c4_amended_only_empty_chain_rejected dbChainEmpty "f1" "b@example.com"
      "cs_1" "o1" 0 (by decide) (by decide) (by decide) fileRowC4 (by decide)
      (by decide)).1⟩

/-- A database in which the master switch is explicitly disabled while
`marketplace_purchase` is enabled, with a purchasable listed file. -/
def dbMasterOff : DB :=
  { flags := [("master_switch", false), ("marketplace_purchase", true)]
    files := [{ id := "f1", title := "Widget", price_cents := 500,
                stage := Stage.listed, storage_path := "u1/f1/w.zip" }]
    chains := [("f1", [⟨"m1", 10000, 0⟩])]
    orders := []
    payouts := [] }

/-- C9 counterexample: with `master_switch` disabled but
`marketplace_purchase` enabled, `create-checkout` does not fail with the
feature-disabled error — it returns 200 and creates an order, because
`isPurchaseEnabled` never consults `master_switch`. -/
theorem c9_counterexample_master_switch_ignored :
    lookupFlag dbMasterOff.flags "master_switch" = some false ∧
    lookupFlag dbMasterOff.flags "marketplace_purchase" = some true ∧
    (createCheckout dbMasterOff "f1" "b@example.com" "cs_1" "o1" 0).1 = 200 ∧
    (createCheckout dbMasterOff "f1" "b@example.com" "cs_1" "o1" 0).1 ≠ 403 ∧
    (createCheckout dbMasterOff "f1" "b@example.com" "cs_1" "o1" 0).2.orders.length = 1 := by
  decide

/-- C9 (amended): purchase eligibility in `create-checkout` consults only
the `marketplace_purchase` flag: whenever that flag is not enabled
(absent or false), the handler fails with the feature-disabled error (403)
before any order is created; the master switch is not consulted. -/
theorem c9_amended_purchase_flag_gate (db : DB)
    (fid be sid oid : String) (now : Nat)
    (hflag : lookupFlag db.flags "marketplace_purchase" ≠ some true)
    (hfid : fid ≠ "") (hbe : be ≠ "") :
    createCheckout db fid be sid oid now = (403, db) := by
  have hen : isPurchaseEnabled db = false := by
    unfold isPurchaseEnabled
    cases h : lookupFlag db.flags "marketplace_purchase" with
    | none => rfl
    | some b =>
      cases b with
      | false => rfl
      | true => exact absurd h hflag
  unfold createCheckout
  simp [hfid, hbe, hen]

/-- A database with no flag rows at all. -/
def dbNoFlags : DB :=
  { flags := [], files := [], chains := [], orders := [], payouts := [] }

/-- Witness for C9 (amended): with all flags absent, checkout is refused
with 403 and no order is created. -/
theorem c9_amended_purchase_flag_gate_witness :
    lookupFlag dbNoFlags.flags "marketplace_purchase" ≠ some true ∧
    createCheckout dbNoFlags "f1" "b@example.com" "cs_1" "o1" 0 =
      (403, dbNoFlags) :=
  ⟨by decide,
    c9_amended_purchase_flag_gate dbNoFlags "f1" "b@example.com" "cs_1" "o1" 0
      (by decide) (by decide) (by decide)⟩

/-! ## Claims about the webhook dispatcher -/

/-- C10: every webhook event whose type is neither
`checkout.session.completed` nor `payment_intent.payment_failed` is
acknowledged with status 200 and the database — in particular every order
and payout row — is left unchanged. -/
theorem c10_unhandled_events_are_frame (db : DB) (ev : StripeEvent)
    (freshToken : String) (now : Nat)
    (h1 : ev.type ≠ "checkout.session.completed")
    (h2 : ev.type ≠ "payment_intent.payment_failed") :
    stripeWebhook db ev freshToken now = (200, db) := by
  unfold stripeWebhook
  simp [h1, h2]

/-- Witness for C10: an `invoice.paid` event against a database holding one
order is acknowledged with 200 and leaves the database unchanged. -/
theorem c10_unhandled_events_are_frame_witness :
    (("invoice.paid" : String) ≠ "checkout.session.completed") ∧
    (("invoice.paid" : String) ≠ "payment_intent.payment_failed") ∧
    stripeWebhook dbMasterOff
        { type := "invoice.paid", sessionId := "cs_1",
          paymentIntentId := "pi_1", metaFileId := some "f1",
          metaBuyerEmail := some "b@example.com" } "tok" 0 =
      (200, dbMasterOff) :=
  ⟨by decide, by decide,
    c10_unhandled_events_are_frame dbMasterOff
      { type := "invoice.paid", sessionId := "cs_1",
        paymentIntentId := "pi_1", metaFileId := some "f1",
        metaBuyerEmail := some "b@example.com" } "tok" 0
      (by decide) (by decide)⟩

/-- C8: the `payment_intent.payment_failed` handler — whose own doc comment
says "Mark the order as failed" — returns 200 without mutating any order:
its lookup and update are commented-out TODO code, so a pending order
referenced by a failed payment stays pending (the claimed pending→failed
transition never happens). -/
theorem c8_payment_failed_handler_mutates_nothing :
    (∀ (db : DB) (paymentIntentId : String),
       handlePaymentFailed db paymentIntentId = (200, db)) ∧
    (∀ (db : DB) (sid pi : String) (mf mb : Option String)
       (tok : String) (now : Nat),
       stripeWebhook db
         { type := "payment_intent.payment_failed", sessionId := sid,
           paymentIntentId := pi, metaFileId := mf, metaBuyerEmail := mb }
         tok now = (200, db)) := by
  constructor
  · intro db piId
    rfl
  · intro db sid pi mf mb tok now
    rfl

/-- The database for the C1 replay scenario: purchasing enabled, one listed
file priced 500 with a single-participant 10000bp royalty chain. -/
def dbReplay0 : DB :=
  { flags := [("marketplace_purchase", true)]
    files := [{ id := "f1", title := "Widget", price_cents := 500,
                stage := Stage.listed, storage_path := "u1/f1/w.zip" }]
    chains := [("f1", [⟨"m1", 10000, 0⟩])]
    orders := []
    payouts := [] }

/-- The `checkout.session.completed` event for session `cs_1`. -/
def evReplay : StripeEvent :=
  { type := "checkout.session.completed", sessionId := "cs_1",
    paymentIntentId := "pi_1", metaFileId := some "f1",
    metaBuyerEmail := some "b@example.com" }

/-- State after `create-checkout` opened order `o1` (session `cs_1`). -/
def dbReplay1 : DB :=
  (createCheckout dbReplay0 "f1" "b@example.com" "cs_1" "o1" 0).2

/-- State after the first delivery of the `CheckoutCompleted` event. -/
def dbReplay2 : DB := (stripeWebhook dbReplay1 evReplay "tok1" 100).2

/-- State after the second (replayed) delivery of the same event. -/
def dbReplay3 : DB := (stripeWebhook dbReplay2 evReplay "tok2" 200).2

/-- C1: replaying the same `CheckoutCompleted` event (same
`paymentReference` `cs_1`) is not idempotent. The first delivery marks the
order paid at time 100 and creates one payout batch (one row); the replay
is accepted with 200 even though the order is already paid, and it inserts
a second payout batch (two rows total), overwrites `paid_at` (100 → 200)
and rotates the download token — the handler never checks the current
`payment_status`. -/
theorem c1_checkout_completed_replay_not_idempotent :
    dbReplay2.payouts.length = 1 ∧
    ((dbReplay2.orders.find? fun o => o.id == "o1").map
        fun o => o.payment_status) = some PaymentStatus.paid ∧
    ((dbReplay2.orders.find? fun o => o.id == "o1").map
        fun o => o.paid_at) = some (some 100) ∧
    (stripeWebhook dbReplay2 evReplay "tok2" 200).1 = 200 ∧
    dbReplay3.payouts.length = 2 ∧
    ((dbReplay3.orders.find? fun o => o.id == "o1").map
        fun o => o.paid_at) = some (some 200) ∧
    ((dbReplay3.orders.find? fun o => o.id == "o1").map
        fun o => o.download_token) = some (some "tok2") := by
  decide

/-! ## Claims about the download credential manager -/

/-- Mapping an id-preserving update over the table leaves `find?` at the
image of the found row. -/
lemma find?_map_update {α : Type} (l : List α) (p : α → Bool) (a : α)
    (g : α → α) (hg : ∀ x, p (g x) = p x) (hfind : l.find? p = some a) :
    (l.map g).find? p = some (g a) := by
  rw [find?_map_of_pred_comm g p hg l, hfind]
  rfl

/-- C6: for a paid order owned by the requester, `resend-download` succeeds
exactly while `delivery_email_retries < 5` — incrementing the count, issuing
the fresh token and extending expiry to `now + 72h` — and fails with the
retry-limit error (429, database unchanged) once the count has reached 5.
In particular the 5th call (count 4) succeeds and the 6th (count 5) fails. -/
theorem c6_renew_retry_cap (db : DB) (oid tok : String) (now : Nat)
    (order : Order)
    (hfind : db.orders.find? (fun o => o.id == oid) = some order)
    (hpaid : order.payment_status = PaymentStatus.paid)
    (hoid : oid ≠ "") :
    (order.delivery_email_retries < MAX_DELIVERY_RETRIES →
       (resendDownload db (some order.buyer_email) oid tok now).1 = 200 ∧
       (resendDownload db (some order.buyer_email) oid tok now).2.orders.find?
           (fun o => o.id == oid) =
         some { order with
                  download_token := some tok
                  download_expires_at := some (now + DOWNLOAD_TOKEN_TTL_MS)
                  delivery_email_retries := order.delivery_email_retries + 1 }) ∧
    (MAX_DELIVERY_RETRIES ≤ order.delivery_email_retries →
       resendDownload db (some order.buyer_email) oid tok now = (429, db)) := by
  simp only [resendDownload, hoid, if_false, hfind, ite_false]
  constructor
  · intro h5
    rw [if_neg (by simp), if_neg (by simp [hpaid]),
      if_neg (Nat.not_le.mpr h5)]
    refine ⟨rfl, ?_⟩
    have hres := find?_map_update db.orders (fun o => o.id == oid) order
      (fun o => if o.id == order.id then
          { o with download_token := some tok
                   download_expires_at := some (now + DOWNLOAD_TOKEN_TTL_MS)
                   delivery_email_retries := o.delivery_email_retries + 1 }
        else o)
      (fun x => by by_cases hx : (x.id == order.id) = true <;> simp [hx])
      hfind
    simpa using hres
  · intro h5
    rw [if_neg (by simp), if_neg (by simp [hpaid]), if_pos h5]

/-- A database holding one paid order `o1` with `delivery_email_retries = 4`
(about to make its 5th renewal). -/
def dbRenew : DB :=
  { flags := []
    files := []
    chains := []
    orders := [{ id := "o1", file_id := "f1", buyer_email := "b@example.com",
                 stripe_session_id := "cs_1",
                 payment_status := PaymentStatus.paid,
                 total_cents := 550, pif_fee_cents := 50,
                 download_token := some "tok0",
                 download_expires_at := some 100,
                 downloaded_at := none, download_attempts := 0,
                 delivery_email_retries := 4, created_at := 0,
                 paid_at := some 10 }]
    payouts := [] }

/-- The paid order stored in `dbRenew`. -/
def orderRenew : Order :=
  { id := "o1", file_id := "f1", buyer_email := "b@example.com",
    stripe_session_id := "cs_1", payment_status := PaymentStatus.paid,
    total_cents := 550, pif_fee_cents := 50, download_token := some "tok0",
    download_expires_at := some 100, downloaded_at := none,
    download_attempts := 0, delivery_email_retries := 4, created_at := 0,
    paid_at := some 10 }

/-- Witness for C6: the 5th renewal (retry count 4) of the paid order `o1`
succeeds with status 200. -/
theorem c6_renew_retry_cap_witness :
    dbRenew.orders.find? (fun o => o.id == "o1") = some orderRenew ∧
    orderRenew.payment_status = PaymentStatus.paid ∧
    ("o1" : String) ≠ "" ∧
    (orderRenew.delivery_email_retries < MAX_DELIVERY_RETRIES →
       (resendDownload dbRenew (some orderRenew.buyer_email) "o1" "tok5" 1000).1 = 200 ∧
       (resendDownload dbRenew (some orderRenew.buyer_email) "o1" "tok5" 1000).2.orders.find?
           (fun o => o.id == "o1") =
         some { orderRenew with
                  download_token := some "tok5"
                  download_expires_at := some (1000 + DOWNLOAD_TOKEN_TTL_MS)
                  delivery_email_retries := orderRenew.delivery_email_retries + 1 }) :=
  ⟨by decide, by decide, by decide,
    (c6_renew_retry_cap dbRenew "o1" "tok5" 1000 orderRenew (by decide)
      (by decide) (by decide)).1⟩

/-- C7: redeeming (`download`) a paid order's token whose expiry is in the
past fails with the expired error (410, database unchanged) for every
requester identity other than the buyer's — including no identity at all —
while the buyer's identity succeeds (302), records the download
(`downloaded_at`, `download_attempts + 1`) and leaves
`delivery_email_retries` untouched (the resulting row differs from the
original only in those two tracking fields). -/
theorem c7_redeem_expired_owner_only (db : DB) (tok : String)
    (now expTime : Nat) (order : Order) (f : FileRow)
    (hfind : db.orders.find? (fun o => o.download_token == some tok) = some order)
    (hpaid : order.payment_status = PaymentStatus.paid)
    (hexp : order.download_expires_at = some expTime)
    (hlate : expTime < now)
    (htok : tok ≠ "")
    (hfile : db.files.find? (fun x => x.id == order.file_id) = some f) :
    (∀ authEmail : Option String, authEmail ≠ some order.buyer_email →
       download db tok authEmail now = (410, db)) ∧
    ((download db tok (some order.buyer_email) now).1 = 302 ∧
     (download db tok (some order.buyer_email) now).2.orders.find?
         (fun o => o.download_token == some tok) =
       some { order with
                downloaded_at := some now
                download_attempts := order.download_attempts + 1 }) := by
  constructor
  · intro authEmail hauth
    simp only [download, htok, if_false, hfind, hpaid, ite_false]
    rw [if_neg (by simp [hpaid]), hexp]
    rw [if_pos ⟨by simpa using hlate, hauth⟩]
  · simp only [download, htok, if_false, hfind, ite_false]
    rw [if_neg (by simp [hpaid]), hexp]
    rw [if_neg (by simp)]
    rw [hfile]
    refine ⟨rfl, ?_⟩
    have hres := find?_map_update db.orders
      (fun o => o.download_token == some tok) order
      (fun o => if o.id == order.id then
          { o with downloaded_at := some now
                   download_attempts := o.download_attempts + 1 }
        else o)
      (fun x => by by_cases hx : (x.id == order.id) = true <;> simp [hx])
      hfind
    simpa [hexp] using hres

/-- A database holding one paid order `o1` whose download token `tok0`
expired at time 100, and the file it purchased. -/
def dbExpired : DB :=
  { flags := []
    files := [{ id := "f1", title := "Widget", price_cents := 500,
                stage := Stage.listed, storage_path := "u1/f1/w.zip" }]
    chains := []
    orders := [{ id := "o1", file_id := "f1", buyer_email := "b@example.com",
                 stripe_session_id := "cs_1",
                 payment_status := PaymentStatus.paid,
                 total_cents := 550, pif_fee_cents := 50,
                 download_token := some "tok0",
                 download_expires_at := some 100,
                 downloaded_at := none, download_attempts := 0,
                 delivery_email_retries := 2, created_at := 0,
                 paid_at := some 10 }]
    payouts := [] }

/-- The expired-token order stored in `dbExpired`. -/
def orderExpired : Order :=
  { id := "o1", file_id := "f1", buyer_email := "b@example.com",
    stripe_session_id := "cs_1", payment_status := PaymentStatus.paid,
    total_cents := 550, pif_fee_cents := 50, download_token := some "tok0",
    download_expires_at := some 100, downloaded_at := none,
    download_attempts := 0, delivery_email_retries := 2, created_at := 0,
    paid_at := some 10 }

/-- The listed file stored in `dbExpired`. -/
def fileExpired : FileRow :=
  { id := "f1", title := "Widget", price_cents := 500,
    stage := Stage.listed, storage_path := "u1/f1/w.zip" }

/-- Witness for C7: at time 500 (past the expiry 100), an anonymous redeem
of `tok0` fails with 410 while the buyer's redeem succeeds with 302. -/
theorem c7_redeem_expired_owner_only_witness :
    dbExpired.orders.find? (fun o => o.download_token == some "tok0") =
      some orderExpired ∧
    orderExpired.payment_status = PaymentStatus.paid ∧
    orderExpired.download_expires_at = some 100 ∧
    (100 : Nat) < 500 ∧
    ("tok0" : String) ≠ "" ∧
    dbExpired.files.find? (fun x => x.id == orderExpired.file_id) =
      some fileExpired ∧
    ((∀ authEmail : Option String,
        authEmail ≠ some orderExpired.buyer_email →
        download dbExpired "tok0" authEmail 500 = (410, dbExpired)) ∧
     ((download dbExpired "tok0" (some orderExpired.buyer_email) 500).1 = 302 ∧
      (download dbExpired "tok0" (some orderExpired.buyer_email) 500).2.orders.find?
          (fun o => o.download_token == some "tok0") =
        some { orderExpired with
                 downloaded_at := some 500
                 download_attempts := orderExpired.download_attempts + 1 })) :=
  ⟨by decide, by decide, by decide, by decide, by decide, by decide,
    c7_redeem_expired_owner_only dbExpired "tok0" 500 100 orderExpired
      fileExpired (by decide) (by decide) (by decide) (by decide) (by decide)
      (by decide)⟩

/-! ## Order-state shape lemmas for C2 -/

/-- `create-checkout` either leaves the orders table unchanged or appends
one pending order with no download credential. -/
lemma createCheckout_orders_shape (db : DB) (f b s oid : String) (n : Nat) :
    (createCheckout db f b s oid n).2.orders = db.orders ∨
    ∃ newo : Order, newo.payment_status = PaymentStatus.pending ∧
      newo.download_token = none ∧
      (createCheckout db f b s oid n).2.orders = db.orders ++ [newo] := by
  simp only [createCheckout]
  split
  · exact Or.inl rfl
  split
  · exact Or.inl rfl
  split
  · exact Or.inl rfl
  split
  · exact Or.inl rfl
  split
  · exact Or.inl rfl
  · exact Or.inr ⟨_, rfl, rfl, rfl⟩

/-- The `checkout.session.completed` handler either leaves the orders table
unchanged or maps over it, setting the row with the target id to `paid`
with a fresh token, expiry and `paid_at`. -/
lemma handleCheckoutCompleted_orders_shape (db : DB) (sid : String)
    (mf mb : Option String) (tok : String) (now : Nat) :
    (handleCheckoutCompleted db sid mf mb tok now).2.orders = db.orders ∨
    ∃ target : String,
      (handleCheckoutCompleted db sid mf mb tok now).2.orders =
        db.orders.map fun o =>
          if o.id == target then
            { o with payment_status := PaymentStatus.paid
                     download_token := some tok
                     download_expires_at := some (now + 72 * 60 * 60 * 1000)
                     paid_at := some now }
          else o := by
  simp only [handleCheckoutCompleted]
  split
  · split
    · exact Or.inl rfl
    split
    · exact Or.inl rfl
    split
    · exact Or.inr ⟨_, rfl⟩
    · exact Or.inr ⟨_, rfl⟩
  · exact Or.inl rfl

/-- The webhook dispatcher either leaves the orders table unchanged or
performs the `checkout.session.completed` paid-update map. -/
lemma stripeWebhook_orders_shape (db : DB) (ev : StripeEvent)
    (tok : String) (now : Nat) :
    (stripeWebhook db ev tok now).2.orders = db.orders ∨
    ∃ target : String,
      (stripeWebhook db ev tok now).2.orders =
        db.orders.map fun o =>
          if o.id == target then
            { o with payment_status := PaymentStatus.paid
                     download_token := some tok
                     download_expires_at := some (now + 72 * 60 * 60 * 1000)
                     paid_at := some now }
          else o := by
  simp only [stripeWebhook]
  split
  · exact handleCheckoutCompleted_orders_shape db ev.sessionId ev.metaFileId
      ev.metaBuyerEmail tok now
  split
  · exact Or.inl rfl
  · exact Or.inl rfl

/-- `download` either leaves the orders table unchanged or maps over it,
stamping `downloaded_at` and incrementing `download_attempts` on the row
with the target id. -/
lemma download_orders_shape (db : DB) (tok : String) (auth : Option String)
    (now : Nat) :
    (download db tok auth now).2.orders = db.orders ∨
    ∃ target : String,
      (download db tok auth now).2.orders = db.orders.map fun o =>
        if o.id == target then
          { o with downloaded_at := some now
                   download_attempts := o.download_attempts + 1 }
        else o := by
  simp only [download]
  split
  · exact Or.inl rfl
  split
  · exact Or.inl rfl
  split
  · exact Or.inl rfl
  split
  · exact Or.inl rfl
  split
  · exact Or.inl rfl
  · exact Or.inr ⟨_, rfl⟩

/-- `resend-download` either leaves the orders table unchanged or maps over
it, rotating the credential of the found — necessarily paid — order. -/
lemma resendDownload_orders_shape (db : DB) (auth : Option String)
    (oid tok : String) (now : Nat) :
    (resendDownload db auth oid tok now).2.orders = db.orders ∨
    ∃ order : Order, db.orders.find? (fun o => o.id == oid) = some order ∧
      order.payment_status = PaymentStatus.paid ∧
      (resendDownload db auth oid tok now).2.orders = db.orders.map fun o =>
        if o.id == order.id then
          { o with download_token := some tok
                   download_expires_at := some (now + DOWNLOAD_TOKEN_TTL_MS)
                   delivery_email_retries := o.delivery_email_retries + 1 }
        else o := by
  simp only [resendDownload]
  split
  · exact Or.inl rfl
  split
  · exact Or.inl rfl
  split
  · exact Or.inl rfl
  next order hfind =>
    split
    · exact Or.inl rfl
    split
    · exact Or.inl rfl
    next hstat =>
      split
      · exact Or.inl rfl
      · exact Or.inr ⟨order, hfind, not_not.mp hstat, rfl⟩

/-- Pointwise invariant preservation lifts over a table map. -/
lemma inv_preserved_map (orders : List Order) (g : Order → Order)
    (hinv : ∀ o ∈ orders, OrderInv o)
    (hg : ∀ o ∈ orders, OrderInv o → OrderInv (g o)) :
    ∀ o ∈ orders.map g, OrderInv o := by
  intro o ho
  rcases List.mem_map.mp ho with ⟨q, hq, rfl⟩
  exact hg q hq (hinv q hq)

/-- If a table map preserves ids and cannot introduce `failed`, every failed
row after it was already failed. -/
lemma failed_preserved_map (orders : List Order) (g : Order → Order)
    (hid : ∀ o, (g o).id = o.id)
    (hst : ∀ o, (g o).payment_status = PaymentStatus.failed →
      o.payment_status = PaymentStatus.failed) :
    ∀ o ∈ orders.map g, o.payment_status = PaymentStatus.failed →
      ∃ q ∈ orders, q.id = o.id ∧ q.payment_status = PaymentStatus.failed := by
  intro o ho hf
  rcases List.mem_map.mp ho with ⟨q, hq, rfl⟩
  exact ⟨q, hq, (hid q).symm, hst q hf⟩

/-- C2: every operation — checkout creation, webhook payment-event
handling, renew, redeem — preserves the order credential/state invariant
(download token non-null only when paid; a paid order has non-null
`paid_at` and token), and never moves an order into `failed`: any failed
row after an operation was already failed before it, so an order is never
observed `failed` after having been `paid`. Order ids are assumed unique
(`orders.id` is the primary key). -/
theorem c2_order_invariant_preserved (db : DB) (op : Op)
    (hinv : ∀ o ∈ db.orders, OrderInv o)
    (hids : (db.orders.map fun o => o.id).Nodup) :
    (∀ o ∈ (applyOp db op).2.orders, OrderInv o) ∧
    (∀ o ∈ (applyOp db op).2.orders,
       o.payment_status = PaymentStatus.failed →
       ∃ q ∈ db.orders, q.id = o.id ∧
         q.payment_status = PaymentStatus.failed) := by
  have base : (∀ o ∈ db.orders, OrderInv o) ∧
      (∀ o ∈ db.orders, o.payment_status = PaymentStatus.failed →
        ∃ q ∈ db.orders, q.id = o.id ∧
          q.payment_status = PaymentStatus.failed) :=
    ⟨hinv, fun o ho hf => ⟨o, ho, rfl, hf⟩⟩
  cases op with
  | checkoutOp f b s oid n =>
    rcases createCheckout_orders_shape db f b s oid n with h | ⟨newo, hst, htok, h⟩
    · simp only [applyOp, h]
      exact base
    · simp only [applyOp, h]
      constructor
      · intro o ho
        rcases List.mem_append.mp ho with ho | ho
        · exact hinv o ho
        · have heq : o = newo := by simpa using ho
          subst heq
          exact ⟨fun hc => absurd htok hc, fun hp => by simp [hst] at hp⟩
      · intro o ho hf
        rcases List.mem_append.mp ho with ho | ho
        · exact ⟨o, ho, rfl, hf⟩
        · have heq : o = newo := by simpa using ho
          subst heq
          rw [hst] at hf
          cases hf
  | webhookOp ev tok n =>
    rcases stripeWebhook_orders_shape db ev tok n with h | ⟨target, h⟩
    · simp only [applyOp, h]
      exact base
    · simp only [applyOp, h]
      constructor
      · refine inv_preserved_map db.orders _ hinv ?_
        intro o _ ho
        by_cases hid : (o.id == target) = true
        · simp [OrderInv, hid]
        · simpa [hid] using ho
      · refine failed_preserved_map db.orders _ ?_ ?_
        · intro o
          by_cases hid : (o.id == target) = true <;> simp [hid]
        · intro o hf
          by_cases hid : (o.id == target) = true
          · simp [hid] at hf
          · simpa [hid] using hf
  | renewOp auth oid tok n =>
    rcases resendDownload_orders_shape db auth oid tok n
      with h | ⟨order, hfind, hpaid, h⟩
    · simp only [applyOp, h]
      exact base
    · have hordmem : order ∈ db.orders := List.mem_of_find?_eq_some hfind
      simp only [applyOp, h]
      constructor
      · refine inv_preserved_map db.orders _ hinv ?_
        intro o hmem ho
        by_cases hid : (o.id == order.id) = true
        · have heq : o = order :=
            List.inj_on_of_nodup_map hids hmem hordmem (by simpa using hid)
          subst heq
          refine ⟨fun _ => ?_, fun _ => ⟨?_, ?_⟩⟩
          · simpa using hpaid
          · simpa using (ho.2 hpaid).1
          · simp
        · simpa [hid] using ho
      · refine failed_preserved_map db.orders _ ?_ ?_
        · intro o
          by_cases hid : (o.id == order.id) = true <;> simp [hid]
        · intro o hf
          by_cases hid : (o.id == order.id) = true
          · simpa [hid] using hf
          · simpa [hid] using hf
  | redeemOp tok auth n =>
    rcases download_orders_shape db tok auth n with h | ⟨target, h⟩
    · simp only [applyOp, h]
      exact base
    · simp only [applyOp, h]
      constructor
      · refine inv_preserved_map db.orders _ hinv ?_
        intro o _ ho
        by_cases hid : (o.id == target) = true
        · refine ⟨fun hc => ?_, fun hp => ⟨?_, ?_⟩⟩
          · simp only [hid, if_pos] at hc ⊢
            exact ho.1 (by simpa using hc)
          · simp only [hid, if_pos] at hp ⊢
            exact (ho.2 (by simpa using hp)).1
          · simp only [hid, if_pos] at hp ⊢
            exact (ho.2 (by simpa using hp)).2
        · simpa [hid] using ho
      · refine failed_preserved_map db.orders _ ?_ ?_
        · intro o
          by_cases hid : (o.id == target) = true <;> simp [hid]
        · intro o hf
          by_cases hid : (o.id == target) = true
          · simpa [hid] using hf
          · simpa [hid] using hf

/-- Witness for C2: the empty database (no flags, no orders) trivially
satisfies the invariant and the primary-key uniqueness, and a checkout
operation preserves both conclusions. -/
theorem c2_order_invariant_preserved_witness :
    (∀ o ∈ dbNoFlags.orders, OrderInv o) ∧
    (dbNoFlags.orders.map fun o => o.id).Nodup ∧
    ((∀ o ∈ (applyOp dbNoFlags
        (Op.checkoutOp "f1" "b@example.com" "cs_1" "o1" 0)).2.orders,
        OrderInv o) ∧
     (∀ o ∈ (applyOp dbNoFlags
        (Op.checkoutOp "f1" "b@example.com" "cs_1" "o1" 0)).2.orders,
        o.payment_status = PaymentStatus.failed →
        ∃ q ∈ dbNoFlags.orders, q.id = o.id ∧
          q.payment_status = PaymentStatus.failed)) := by
  have h1 : ∀ o ∈ dbNoFlags.orders, OrderInv o := by
    simp [dbNoFlags]
  have h2 : (dbNoFlags.orders.map fun o => o.id).Nodup := by
    simp [dbNoFlags]
  exact ⟨h1, h2, c2_order_invariant_preserved dbNoFlags
    (Op.checkoutOp "f1" "b@example.com" "cs_1" "o1" 0) h1 h2⟩

end SelectionConnection
